import Mathlib

/-!
Verification of the reference-decoration pipeline of
pip-services-container-node (`refer/BuildReferencesDecorator.ts`,
`refer/RunReferencesDecorator.ts`), shallowly embedded in Lean 4.

Errors raised by component code (probes, constructors, open/close) are
modelled as `Except String`; the locator/registry/opener infrastructure
that the decorators delegate to lives outside the provided sources and
is modelled from the specification where noted.
-/

/-- Modelled from the spec: a structured locator descriptor with fields
group, type, kind, name and version, each optionally wildcarded
(`none` = "any").  (The `Descriptor` class is imported from
pip-services-commons-node and is not part of the provided sources.) -/
structure Descriptor where
  group : Option String
  type : Option String
  kind : Option String
  name : Option String
  version : Option String
deriving DecidableEq, Repr

/-- Modelled from the spec: a locator is an opaque matching key; it may be
a structured `Descriptor` or any other value compared by structural
equality (modelled by a string key). -/
inductive Locator where
  | descriptor (d : Descriptor)
  | key (s : String)
deriving DecidableEq, Repr

/-- A component handle.  A component may optionally expose the factory
capability (a `canCreate` probe and a `create` constructor, both of which
may raise) and the openable capability (an `open` and a `close` operation,
each of which either completes or raises).  The numeric id only
distinguishes handles so that invocation traces can name them. -/
inductive Component : Type where
  | mk (cid : Nat)
       (canCreateFn : Option (Locator → Except String (Option Locator)))
       (createFn : Option (Locator → Except String (Option Component)))
       (openFn : Option (Except String Unit))
       (closeFn : Option (Except String Unit))

/-- The numeric id of a component handle. -/
def Component.cid : Component → Nat
  | .mk i _ _ _ _ => i

/-- The component's `canCreate` probe, when it exposes one. -/
def Component.canCreateFn :
    Component → Option (Locator → Except String (Option Locator))
  | .mk _ f _ _ _ => f

/-- The component's `create` constructor, when it exposes one. -/
def Component.createFn :
    Component → Option (Locator → Except String (Option Component))
  | .mk _ _ f _ _ => f

/-- The outcome of the component's `open` operation, when it exposes the
openable capability (`none` = capability absent). -/
def Component.openFn : Component → Option (Except String Unit)
  | .mk _ _ _ f _ => f

/-- The outcome of the component's `close` operation, when it exposes the
openable capability (`none` = capability absent). -/
def Component.closeFn : Component → Option (Except String Unit)
  | .mk _ _ _ _ f => f

/-- Modelled from the spec: one field pair of two locators matches when
either side is wildcarded (`none`) or both are equal. -/
def fieldMatch (a b : Option String) : Bool :=
  a.isNone || b.isNone || a == b

/-- Modelled from the spec: two descriptors match when every field pair
matches. -/
def Descriptor.matches (q s : Descriptor) : Bool :=
  fieldMatch q.group s.group && fieldMatch q.type s.type &&
  fieldMatch q.kind s.kind && fieldMatch q.name s.name &&
  fieldMatch q.version s.version

/-- Modelled from the spec: two locators match if both are descriptors
that match field-by-field, or otherwise are structurally equal. -/
def Locator.matches : Locator → Locator → Bool
  | .descriptor q, .descriptor s => Descriptor.matches q s
  | .key a, .key b => a == b
  | _, _ => false

/-- An error surfaced by a decorator lookup: either the structured
"reference not found" failure carrying the locator, or an error thrown
by component code that the lookup did not catch. -/
inductive FindError where
  | referenceNotFound (locator : Locator)
  | thrown (e : String)

/-- Modelled from the spec: the reference registry, a flat ordered
collection of (locator, component) pairs (the `References` class is not
part of the provided sources). -/
structure References where
  refs : List (Locator × Component)

/-- Modelled from the spec: `put` appends a reference and never fails. -/
def References.put (r : References) (l : Locator) (c : Component) : References :=
  ⟨r.refs ++ [(l, c)]⟩

/-- Modelled from the spec: `getAll` returns every component in insertion
order. -/
def References.getAll (r : References) : List Component :=
  r.refs.map (·.2)

/-- Modelled from the spec: the components whose stored locator matches
the queried locator, in insertion order (the result of
`find(locator, false)`). -/
def References.findList (r : References) (l : Locator) : List Component :=
  (r.refs.filter (fun p => Locator.matches l p.1)).map (·.2)

/-- Modelled from the spec: `find(locator, required)` returns all matching
components; if `required` and none match it fails with
ReferenceNotFound carrying the locator. -/
def References.find (r : References) (l : Locator) (required : Bool) :
    Except FindError (List Component) :=
  if required && (r.findList l).isEmpty then
    .error (.referenceNotFound l)
  else
    .ok (r.findList l)

/-- Modelled from the spec: `remove` removes and returns the first
matching reference's component, or none. -/
def References.remove : References → Locator → Option Component × References
  | ⟨[]⟩, _ => (none, ⟨[]⟩)
  | ⟨p :: rest⟩, l =>
    if Locator.matches l p.1 then
      (some p.2, ⟨rest⟩)
    else
      let (c, r) := References.remove ⟨rest⟩ l
      (c, ⟨p :: r.refs⟩)

/-- Modelled from the spec: `removeAll` removes and returns all matching
components, preserving relative order of matches and of the remainder. -/
def References.removeAll (r : References) (l : Locator) :
    List Component × References :=
  ((r.refs.filter (fun p => Locator.matches l p.1)).map (·.2),
   ⟨r.refs.filter (fun p => !Locator.matches l p.1)⟩)

/-- Modelled from the spec: the parent references of a decorator are an
arbitrary implementation of the IReferences interface, so its `put` may
fail (the spec's RegistrationFailure); the model keeps the registry data
together with the set of inputs on which `put` raises. -/
structure IRefsImpl where
  data : References
  putFail : Locator → Component → Option String

/-- Modelled from the spec: a `put` through the IReferences interface
either raises (per `putFail`) leaving the data unchanged, or appends the
pair to the registry. -/
def IRefsImpl.put (p : IRefsImpl) (l : Locator) (c : Component) :
    Except String IRefsImpl :=
  match p.putFail l c with
  | some e => .error e
  | none => .ok { p with data := p.data.put l c }

/-- An observable invocation made by the build decorator: probing a
component's `canCreate`, invoking a factory's `create`, or writing to the
parent references. -/
inductive BuildEvent where
  | probe (cid : Nat)
  | create (cid : Nat)
  | parentPut
deriving DecidableEq, Repr

/-- The build decorator wraps a base reference set (the
`ReferencesDecorator` superclass delegates reads to it; modelled from the
spec since that class is not in the provided sources) and a parent
reference set that newly built components are written back into. -/
structure BuildReferencesDecorator where
  baseReferences : References
  parentReferences : IRefsImpl

namespace BuildReferencesDecorator

/-- The scan of `findFactory` over the component list: a component that
exposes both `canCreate` and `create` is probed; a probe raising an error
propagates it (the source has no try/catch here); a probe returning a
non-null locator selects that component; otherwise the scan continues. -/
def findFactoryLoop (locator : Locator) :
    List Component → Except String (Option Component) × List BuildEvent
  | [] => (.ok none, [])
  | c :: rest =>
    match c.canCreateFn, c.createFn with
    | some probe, some _ =>
      match probe locator with
      | .error e => (.error e, [.probe c.cid])
      | .ok (some _) => (.ok (some c), [.probe c.cid])
      | .ok none =>
        let (r, t) := findFactoryLoop locator rest
        (r, .probe c.cid :: t)
    | _, _ => findFactoryLoop locator rest

/-- `findFactory(locator)`: scans `getAll()` for the first component with
both factory functions whose `canCreate(locator)` is truthy; returns null
when none qualifies. -/
def findFactory (st : BuildReferencesDecorator) (locator : Locator) :
    Except String (Option Component) × List BuildEvent :=
  findFactoryLoop locator st.baseReferences.getAll

/-- `create(locator, factory)`: null factory gives null; otherwise
`factory.create(locator)` is invoked inside a try/catch, any raised error
being swallowed into a null result. -/
def create (locator : Locator) (factory : Option Component) :
    Option Component × List BuildEvent :=
  match factory with
  | none => (none, [])
  | some f =>
    match f.createFn with
    | none => (none, [])
    | some mkF =>
      match mkF locator with
      | .error _ => (none, [.create f.cid])
      | .ok co => (co, [.create f.cid])

/-- Merge of one descriptor field: the original's value when non-null, the
factory-supplied value otherwise. -/
def mergeField (a b : Option String) : Option String :=
  match a with
  | some x => some x
  | none => b

/-- `clarifyLocator(locator, factory)`: returns the locator unchanged when
the factory is null, the locator is not a Descriptor, or the factory's
`canCreate` yields null or a non-Descriptor; otherwise merges the two
descriptors field-by-field, the original's non-null fields winning.  The
probe is re-invoked here without a catch, so its errors propagate. -/
def clarifyLocator (locator : Locator) (factory : Option Component) :
    Except String Locator × List BuildEvent :=
  match factory with
  | none => (.ok locator, [])
  | some f =>
    match locator with
    | .key s => (.ok (.key s), [])
    | .descriptor d =>
      match f.canCreateFn with
      | none => (.error "TypeError: canCreate is not a function", [])
      | some probe =>
        match probe (.descriptor d) with
        | .error e => (.error e, [.probe f.cid])
        | .ok none => (.ok (.descriptor d), [.probe f.cid])
        | .ok (some (.key _)) => (.ok (.descriptor d), [.probe f.cid])
        | .ok (some (.descriptor d2)) =>
          (.ok (.descriptor
            ⟨mergeField d.group d2.group, mergeField d.type d2.type,
             mergeField d.kind d2.kind, mergeField d.name d2.name,
             mergeField d.version d2.version⟩),
           [.probe f.cid])

/-- `find(locator, required)` of the build decorator: delegates to the
base set with `required := false`; on an empty result with `required`
true it searches a factory (probe errors propagating), attempts creation,
and on success clarifies the locator and writes the pair into the parent
references inside a try/catch whose errors are ignored — the push into
the result happens after the put, so a failed put loses the component;
finally, an empty required result raises ReferenceNotFound carrying the
(possibly clarified) locator. -/
def find (st : BuildReferencesDecorator) (locator : Locator)
    (required : Bool) :
    Except FindError (List Component) × BuildReferencesDecorator ×
      List BuildEvent :=
  let components := st.baseReferences.findList locator
  if required && components.isEmpty then
    match findFactory st locator with
    | (.error e, tr) => (.error (.thrown e), st, tr)
    | (.ok factory, tr1) =>
      let (componentOpt, tr2) := create locator factory
      match componentOpt with
      | none => (.error (.referenceNotFound locator), st, tr1 ++ tr2)
      | some component =>
        match clarifyLocator locator factory with
        | (.error _, tr3) =>
          (.error (.referenceNotFound locator), st, tr1 ++ tr2 ++ tr3)
        | (.ok loc2, tr3) =>
          match st.parentReferences.put loc2 component with
          | .error _ =>
            (.error (.referenceNotFound loc2), st,
             tr1 ++ tr2 ++ tr3 ++ [.parentPut])
          | .ok parent2 =>
            (.ok [component], { st with parentReferences := parent2 },
             tr1 ++ tr2 ++ tr3 ++ [.parentPut])
  else
    (.ok components, st, [])

end BuildReferencesDecorator

namespace Opener

/-- Modelled from the spec: the bulk open over a component list invokes
each component's `open` only if it exposes the openable capability
(others are skipped), strictly in order, stopping at and surfacing the
first failure.  Returns the surfaced error (if any) and the ids of the
components whose `open` was actually invoked.  (`Opener` comes from
pip-services-commons-node and is not in the provided sources.) -/
def openAll : List Component → Option String × List Nat
  | [] => (none, [])
  | c :: rest =>
    match c.openFn with
    | none => openAll rest
    | some (.ok _) =>
      let (e, t) := openAll rest
      (e, c.cid :: t)
    | some (.error e) => (some e, [c.cid])

/-- Modelled from the spec: opening a single component invokes its `open`
only when it exposes the capability; with a null callback any error is
discarded.  Returns the ids of the components whose `open` was
invoked. -/
def openOne (c : Component) : List Nat :=
  match c.openFn with
  | none => []
  | some _ => [c.cid]

end Opener

namespace Closer

/-- Modelled from the spec: the bulk close mirrors the bulk open — each
component's `close` is invoked only if it exposes the capability, in
order, stopping at and surfacing the first failure. -/
def closeAll : List Component → Option String × List Nat
  | [] => (none, [])
  | c :: rest =>
    match c.closeFn with
    | none => closeAll rest
    | some (.ok _) =>
      let (e, t) := closeAll rest
      (e, c.cid :: t)
    | some (.error e) => (some e, [c.cid])

/-- Modelled from the spec: closing a single component invokes its `close`
only when it exposes the capability, discarding errors. -/
def closeOne (c : Component) : List Nat :=
  match c.closeFn with
  | none => []
  | some _ => [c.cid]

end Closer

/-- The run decorator wraps a base reference set (through the delegating
`ReferencesDecorator` superclass, modelled from the spec) and keeps the
`_opened` lifecycle flag, initially false. -/
structure RunReferencesDecorator where
  baseReferences : References
  parentReferences : References
  opened : Bool

namespace RunReferencesDecorator

/-- `isOpen()` returns the current flag. -/
def isOpen (st : RunReferencesDecorator) : Bool :=
  st.opened

/-- Embeds `open(correlationId, callback)`: when not opened, bulk-opens
`getAll()` and sets the flag to true only when no error was reported;
when already opened, calls back with null immediately.  Returns the new
state, the error handed to the callback, and the ids of the components
whose `open` was invoked. -/
def doOpen (st : RunReferencesDecorator) :
    RunReferencesDecorator × Option String × List Nat :=
  if !st.opened then
    let (err, tr) := Opener.openAll st.baseReferences.getAll
    ({ st with opened := if err.isNone then true else st.opened }, err, tr)
  else
    (st, none, [])

/-- Embeds `close(correlationId, callback)`: when opened, bulk-closes
`getAll()` and sets the flag to false whatever error the bulk close
reports, forwarding that error to the callback; when already closed,
calls back with null immediately.  Returns the new state, the error
handed to the callback, and the ids of the components whose `close` was
invoked. -/
def doClose (st : RunReferencesDecorator) :
    RunReferencesDecorator × Option String × List Nat :=
  if st.opened then
    let (err, tr) := Closer.closeAll st.baseReferences.getAll
    ({ st with opened := false }, err, tr)
  else
    (st, none, [])

/-- `put(locator, component)`: delegates to the base `put`, then, when the
decorator is opened, individually opens the added component with a null
callback (errors discarded).  Returns the new state and the ids of the
components whose `open` was invoked. -/
def put (st : RunReferencesDecorator) (l : Locator) (c : Component) :
    RunReferencesDecorator × List Nat :=
  let st2 := { st with baseReferences := st.baseReferences.put l c }
  if st.opened then
    (st2, Opener.openOne c)
  else
    (st2, [])

/-- `remove(locator)`: delegates to the base removal, then, when opened,
individually closes the removed component (errors discarded; nothing is
closed when no component matched). -/
def remove (st : RunReferencesDecorator) (l : Locator) :
    Option Component × RunReferencesDecorator × List Nat :=
  let (comp, base2) := st.baseReferences.remove l
  let st2 := { st with baseReferences := base2 }
  if st.opened then
    (comp, st2, (comp.map Closer.closeOne).getD [])
  else
    (comp, st2, [])

/-- `removeAll(locator)`: delegates to the base bulk removal, then, when
opened, bulk-closes the removed components with a null callback (errors
discarded). -/
def removeAll (st : RunReferencesDecorator) (l : Locator) :
    List Component × RunReferencesDecorator × List Nat :=
  let (comps, base2) := st.baseReferences.removeAll l
  let st2 := { st with baseReferences := base2 }
  if st.opened then
    (comps, st2, (Closer.closeAll comps).2)
  else
    (comps, st2, [])

end RunReferencesDecorator

/-- A component whose `open` attempts are recorded by `opensOk`: it is
acceptable when it either lacks the openable capability or opens without
error. -/
def opensOk (c : Component) : Bool :=
  match c.openFn with
  | some (.error _) => false
  | _ => true

/-- The ids of the components of a list whose `open` would be invoked by
the bulk open (those exposing the capability), in order. -/
def okTrace (cs : List Component) : List Nat :=
  cs.filterMap (fun c => match c.openFn with
    | none => none
    | some _ => some c.cid)

/-- A plain component handle with no capabilities, as produced by a
sample factory. -/
def prodComp : Component :=
  .mk 99 none none none none

/-- A probe that claims it can create anything, answering with the fixed
locator key "service". -/
def probeService : Locator → Except String (Option Locator) :=
  fun _ => .ok (some (.key "service"))

/-- A constructor that always produces `prodComp`. -/
def createProd : Locator → Except String (Option Component) :=
  fun _ => .ok (some prodComp)

/-- A factory component that can create anything and produces
`prodComp`. -/
def goodFactory : Component :=
  .mk 1 (some probeService) (some createProd) none none

/-- The original descriptor of the specification's clarify example:
group "g" and kind "k" populated, the rest wildcarded. -/
def dOrig : Descriptor :=
  ⟨some "g", none, some "k", none, none⟩

/-- The factory-supplied descriptor of the specification's clarify
example: all five fields populated. -/
def dFact : Descriptor :=
  ⟨some "g2", some "t", some "k2", some "n", some "v"⟩

/-- A probe answering with the fully populated descriptor `dFact`. -/
def probeDesc : Locator → Except String (Option Locator) :=
  fun _ => .ok (some (.descriptor dFact))

/-- A factory component whose probe answers with the descriptor
`dFact`. -/
def descFactory : Component :=
  .mk 2 (some probeDesc) (some createProd) none none

/-- A probe that raises on every locator. -/
def probeRaising : Locator → Except String (Option Locator) :=
  fun _ => .error "probe failed"

/-- A factory-capable component whose `canCreate` probe raises. -/
def badProbeFactory : Component :=
  .mk 3 (some probeRaising) (some createProd) none none

/-- A probe that declines every locator without raising. -/
def probeDeclining : Locator → Except String (Option Locator) :=
  fun _ => .ok none

/-- A factory-capable component whose probe declines every locator. -/
def decliningFactory : Component :=
  .mk 4 (some probeDeclining) (some createProd) none none

/-- A parent references implementation whose `put` always succeeds,
starting empty. -/
def parentOk : IRefsImpl :=
  ⟨⟨[]⟩, fun _ _ => none⟩

/-- A parent references implementation whose `put` always raises. -/
def parentBad : IRefsImpl :=
  ⟨⟨[]⟩, fun _ _ => some "put failed"⟩

/-- An openable component with the given id whose open and close both
succeed. -/
def opOk (i : Nat) : Component :=
  .mk i none none (some (.ok ())) (some (.ok ()))

/-- An openable component whose open and close both raise. -/
def opFail : Component :=
  .mk 12 none none (some (.error "open failed")) (some (.error "close failed"))

/-- A build decorator whose base holds only `goodFactory` (stored under a
key that matches no service lookup) and whose parent accepts puts. -/
def stGoodBuild : BuildReferencesDecorator :=
  ⟨⟨[(.key "factory", goodFactory)]⟩, parentOk⟩

/-- A build decorator like `stGoodBuild` but whose parent's `put`
raises. -/
def stPutFail : BuildReferencesDecorator :=
  ⟨⟨[(.key "factory", goodFactory)]⟩, parentBad⟩

/-- A build decorator whose base holds only the raising-probe factory. -/
def stBadProbe : BuildReferencesDecorator :=
  ⟨⟨[(.key "factory", badProbeFactory)]⟩, parentOk⟩

/-- A build decorator whose base holds only the declining factory. -/
def stDeclining : BuildReferencesDecorator :=
  ⟨⟨[(.key "factory", decliningFactory)]⟩, parentOk⟩

/-- A closed run decorator over three openable components whose second
open raises, matching the specification's three-component example. -/
def stThree : RunReferencesDecorator :=
  ⟨⟨[(.key "a", opOk 11), (.key "b", opFail), (.key "c", opOk 13)]⟩,
   ⟨[]⟩, false⟩

/-- An opened run decorator over a single component whose close
raises. -/
def stCloseFail : RunReferencesDecorator :=
  ⟨⟨[(.key "a", opFail)]⟩, ⟨[]⟩, true⟩

/-- A closed run decorator over one well-behaved openable component. -/
def stClosedOk : RunReferencesDecorator :=
  ⟨⟨[(.key "a", opOk 11)]⟩, ⟨[]⟩, false⟩

/-- An opened run decorator over one well-behaved openable component. -/
def stOpenedOk : RunReferencesDecorator :=
  ⟨⟨[(.key "a", opOk 11)]⟩, ⟨[]⟩, true⟩

/-- A build decorator whose base already holds a component stored under
the "service" key, besides the factory. -/
def stWithService : BuildReferencesDecorator :=
  ⟨⟨[(.key "service", prodComp), (.key "factory", goodFactory)]⟩, parentOk⟩

/-- The parent references of `stGoodBuild` after the freshly built
component has been registered under the "service" key. -/
def parentAfter : IRefsImpl :=
  ⟨⟨[(.key "service", prodComp)]⟩, fun _ _ => none⟩

/-! Helper lemmas about the run decorator's lifecycle operations. -/

theorem doOpen_when_opened (st : RunReferencesDecorator)
    (h : st.opened = true) : st.doOpen = (st, none, []) := by
  unfold RunReferencesDecorator.doOpen
  rw [h]
  simp

theorem doOpen_when_closed (st : RunReferencesDecorator)
    (h : st.opened = false) :
    st.doOpen =
      ({ st with opened := (Opener.openAll st.baseReferences.getAll).1.isNone },
       (Opener.openAll st.baseReferences.getAll).1,
       (Opener.openAll st.baseReferences.getAll).2) := by
  unfold RunReferencesDecorator.doOpen
  rw [h]
  cases hi : (Opener.openAll st.baseReferences.getAll).1 <;> simp [hi, h]

theorem runState_set_closed (st : RunReferencesDecorator)
    (h : st.opened = false) :
    ({ st with opened := false } : RunReferencesDecorator) = st := by
  cases st with
  | mk b p o =>
    simp only at h
    rw [h]

theorem openAll_all_ok (cs : List Component)
    (h : ∀ c ∈ cs, opensOk c = true) :
    Opener.openAll cs = (none, okTrace cs) := by
  induction cs with
  | nil => rfl
  | cons c rest ih =>
    have hc := h c (List.mem_cons_self c rest)
    have hrest : ∀ x ∈ rest, opensOk x = true :=
      fun x hx => h x (List.mem_cons_of_mem c hx)
    cases hf : c.openFn with
    | none =>
      simp [Opener.openAll, hf, ih hrest, okTrace, List.filterMap_cons]
    | some r =>
      cases r with
      | ok u =>
        simp [Opener.openAll, hf, ih hrest, okTrace, List.filterMap_cons]
      | error e => simp [opensOk, hf] at hc

theorem openAll_append_fail (pre post : List Component) (f : Component)
    (e : String)
    (hpre : ∀ c ∈ pre, opensOk c = true)
    (hf : f.openFn = some (.error e)) :
    Opener.openAll (pre ++ f :: post) = (some e, okTrace pre ++ [f.cid]) := by
  induction pre with
  | nil => simp [Opener.openAll, hf, okTrace]
  | cons c rest ih =>
    have hc := hpre c (List.mem_cons_self c rest)
    have hrest : ∀ x ∈ rest, opensOk x = true :=
      fun x hx => hpre x (List.mem_cons_of_mem c hx)
    cases hfc : c.openFn with
    | none =>
      simp [List.cons_append, Opener.openAll, hfc, ih hrest, okTrace,
            List.filterMap_cons]
    | some r =>
      cases r with
      | ok u =>
        simp [List.cons_append, Opener.openAll, hfc, ih hrest, okTrace,
              List.filterMap_cons]
      | error e2 => simp [opensOk, hfc] at hc

/-- C9: the opened flag of a RunReferencesDecorator is left exactly as it
was by put, remove and removeAll, for every state and argument; it
becomes true after doOpen exactly when it already was true or the bulk
open reported no error, and it is always false after doClose. -/
theorem lifecycle_flag_frame (st : RunReferencesDecorator) (l : Locator)
    (c : Component) :
    ((st.put l c).1).opened = st.opened ∧
    ((st.remove l).2.1).opened = st.opened ∧
    ((st.removeAll l).2.1).opened = st.opened ∧
    ((st.doOpen).1).opened =
      (st.opened || (Opener.openAll st.baseReferences.getAll).1.isNone) ∧
    ((st.doClose).1).opened = false := by
  unfold RunReferencesDecorator.put RunReferencesDecorator.remove
    RunReferencesDecorator.removeAll RunReferencesDecorator.doOpen
    RunReferencesDecorator.doClose
  cases h : st.opened <;>
    cases hi : (Opener.openAll st.baseReferences.getAll).1 <;>
      simp [h, hi]

/-- C6: close while opened transitions the flag to false regardless of
the error the bulk close reports, forwarding that error to the caller;
close while already closed is a no-op that succeeds. -/
theorem close_always_transitions (st : RunReferencesDecorator) :
    (st.opened = true →
      st.doClose = ({ st with opened := false },
        (Closer.closeAll st.baseReferences.getAll).1,
        (Closer.closeAll st.baseReferences.getAll).2)) ∧
    (st.opened = false → st.doClose = (st, none, [])) := by
  constructor <;> intro h <;> simp [RunReferencesDecorator.doClose, h]

/-- Witness for C6 at concrete states: an opened decorator over a
component whose close raises still ends closed with the error surfaced,
and a closed decorator's close is a no-op. -/
theorem close_always_transitions_witness :
    stCloseFail.doClose =
      ({ stCloseFail with opened := false }, some "close failed", [12]) ∧
    stClosedOk.doClose = (stClosedOk, none, []) :=
  ⟨(close_always_transitions stCloseFail).1 rfl,
   (close_always_transitions stClosedOk).2 rfl⟩

/-- C7: put always delegates the addition to the base set; when the
decorator is opened the added component is individually opened (per
`Opener.openOne`, errors discarded), and when closed no open occurs. -/
theorem put_opens_when_opened (st : RunReferencesDecorator) (l : Locator)
    (c : Component) :
    (st.put l c).1 =
      { st with baseReferences := st.baseReferences.put l c } ∧
    (st.opened = true → (st.put l c).2 = Opener.openOne c) ∧
    (st.opened = false → (st.put l c).2 = []) := by
  unfold RunReferencesDecorator.put
  cases h : st.opened <;> simp [h]

/-- Witness for C7 at concrete states: adding an openable component while
opened triggers its individual open; adding while closed does not. -/
theorem put_opens_when_opened_witness :
    (stOpenedOk.put (.key "b") (opOk 21)).1 =
      { stOpenedOk with
        baseReferences := stOpenedOk.baseReferences.put (.key "b") (opOk 21) } ∧
    (stOpenedOk.put (.key "b") (opOk 21)).2 = [21] ∧
    (stClosedOk.put (.key "b") (opOk 21)).2 = [] :=
  ⟨(put_opens_when_opened stOpenedOk (.key "b") (opOk 21)).1,
   (put_opens_when_opened stOpenedOk (.key "b") (opOk 21)).2.1 rfl,
   (put_opens_when_opened stClosedOk (.key "b") (opOk 21)).2.2 rfl⟩

/-- C8: when a call to open completed without error, a second open
without an intervening close invokes no component's open and reports no
error. -/
theorem open_idempotent (st st1 : RunReferencesDecorator) (tr : List Nat)
    (h : st.doOpen = (st1, none, tr)) :
    st1.doOpen = (st1, none, []) := by
  cases h0 : st.opened with
  | true =>
    rw [doOpen_when_opened st h0] at h
    have hst : st = st1 := congrArg Prod.fst h
    rw [← hst]
    exact doOpen_when_opened st h0
  | false =>
    rw [doOpen_when_closed st h0] at h
    have herr : (Opener.openAll st.baseReferences.getAll).1 = none :=
      congrArg (fun p => p.2.1) h
    have hst :
        ({ st with
            opened := (Opener.openAll st.baseReferences.getAll).1.isNone } :
          RunReferencesDecorator) = st1 :=
      congrArg Prod.fst h
    have h1 : st1.opened = true := by
      rw [← hst]
      simp [herr]
    exact doOpen_when_opened st1 h1

/-- Witness for C8 at a concrete state: after a successful first open of
`stClosedOk` (reaching `stOpenedOk`), the second open is a trivial
success that opens nothing. -/
theorem open_idempotent_witness : stOpenedOk.doOpen = (stOpenedOk, none, []) :=
  open_idempotent stClosedOk stOpenedOk [11] rfl

/-- C4: opening a closed decorator whose component sequence has a prefix
of well-behaved components followed by one whose open raises leaves the
flag false, surfaces that component's error, attempts exactly the
prefix's opens plus the failing one (nothing after it), and performs no
rollback — the state is returned unchanged and only open invocations are
recorded. -/
theorem open_aborts_at_first_failure (st : RunReferencesDecorator)
    (pre post : List Component) (f : Component) (e : String)
    (hclosed : st.opened = false)
    (hcomps : st.baseReferences.getAll = pre ++ f :: post)
    (hpre : ∀ c ∈ pre, opensOk c = true)
    (hf : f.openFn = some (.error e)) :
    st.doOpen = (st, some e, okTrace pre ++ [f.cid]) ∧
    (st.doOpen).1.isOpen = false := by
  have hall : Opener.openAll st.baseReferences.getAll =
      (some e, okTrace pre ++ [f.cid]) := by
    rw [hcomps]
    exact openAll_append_fail pre post f e hpre hf
  have hmain := doOpen_when_closed st hclosed
  rw [hall] at hmain
  simp only [Option.isNone_some] at hmain
  rw [runState_set_closed st hclosed] at hmain
  refine ⟨hmain, ?_⟩
  rw [hmain]
  simp [RunReferencesDecorator.isOpen, hclosed]

/-- Witness for C4 at the specification's three-component example: the
second component's open raises, the first was opened, the third is never
attempted and the decorator stays closed. -/
theorem open_aborts_at_first_failure_witness :
    stThree.doOpen = (stThree, some "open failed", [11, 12]) ∧
    (stThree.doOpen).1.isOpen = false :=
  open_aborts_at_first_failure stThree [opOk 11] [opOk 13] opFail
    "open failed" rfl rfl
    (by
      intro c hc
      rw [List.mem_singleton] at hc
      subst hc
      rfl)
    rfl

/-- When the base lookup already matches, the build decorator returns
exactly that result, touches nothing and records no invocation. -/
theorem find_with_base_match (st : BuildReferencesDecorator)
    (loc : Locator) (required : Bool)
    (h : st.baseReferences.findList loc ≠ []) :
    st.find loc required = (.ok (st.baseReferences.findList loc), st, []) := by
  have h2 : (st.baseReferences.findList loc).isEmpty = false := by
    cases hl : st.baseReferences.findList loc with
    | nil => exact absurd hl h
    | cons a l => rfl
  unfold BuildReferencesDecorator.find
  simp [h2]

/-- C10: whenever the base references' lookup for the locator is
non-empty, the build decorator's find returns exactly that result,
invokes no factory probe or create (empty invocation trace) and leaves
the parent references — indeed the whole decorator state — unchanged. -/
theorem find_base_hit_frame (st : BuildReferencesDecorator)
    (loc : Locator) (required : Bool)
    (h : st.baseReferences.findList loc ≠ []) :
    st.find loc required = (.ok (st.baseReferences.findList loc), st, []) :=
  find_with_base_match st loc required h

/-- Witness for C10 at a concrete state whose base holds a matching
component besides a factory: the lookup returns the base hit with an
empty invocation trace. -/
theorem find_base_hit_frame_witness :
    stWithService.find (.key "service") true =
      (.ok [prodComp], stWithService, []) :=
  find_base_hit_frame stWithService (.key "service") true
    (by
      have hl : stWithService.baseReferences.findList (.key "service") =
          [prodComp] := rfl
      rw [hl]
      exact List.cons_ne_nil _ _)

/-! Helper lemmas about locator matching and the build decorator. -/

theorem mergeField_eq (a b : Option String) :
    BuildReferencesDecorator.mergeField a b = if a.isSome then a else b := by
  cases a <;> rfl

theorem fieldMatch_merge (a b : Option String) :
    fieldMatch a (BuildReferencesDecorator.mergeField a b) = true := by
  cases a <;> simp [fieldMatch, BuildReferencesDecorator.mergeField]

theorem locator_matches_self (l : Locator) : Locator.matches l l = true := by
  cases l with
  | descriptor d => simp [Locator.matches, Descriptor.matches, fieldMatch]
  | key s => simp [Locator.matches]

theorem clarify_keeps_match (loc : Locator) (fac : Option Component)
    (loc2 : Locator) (tr : List BuildEvent)
    (h : BuildReferencesDecorator.clarifyLocator loc fac = (.ok loc2, tr)) :
    Locator.matches loc loc2 = true := by
  cases fac with
  | none =>
    simp [BuildReferencesDecorator.clarifyLocator] at h
    obtain ⟨h1, -⟩ := h
    subst h1
    exact locator_matches_self loc
  | some f =>
    cases loc with
    | key s =>
      simp [BuildReferencesDecorator.clarifyLocator] at h
      obtain ⟨h1, -⟩ := h
      subst h1
      exact locator_matches_self (.key s)
    | descriptor d =>
      cases hcc : f.canCreateFn with
      | none => simp [BuildReferencesDecorator.clarifyLocator, hcc] at h
      | some probe =>
        cases hpr : probe (.descriptor d) with
        | error e =>
          simp [BuildReferencesDecorator.clarifyLocator, hcc, hpr] at h
        | ok o =>
          cases o with
          | none =>
            simp [BuildReferencesDecorator.clarifyLocator, hcc, hpr] at h
            obtain ⟨h1, -⟩ := h
            subst h1
            exact locator_matches_self (.descriptor d)
          | some l2 =>
            cases l2 with
            | key s =>
              simp [BuildReferencesDecorator.clarifyLocator, hcc, hpr] at h
              obtain ⟨h1, -⟩ := h
              subst h1
              exact locator_matches_self (.descriptor d)
            | descriptor d2 =>
              simp [BuildReferencesDecorator.clarifyLocator, hcc, hpr] at h
              obtain ⟨h1, -⟩ := h
              subst h1
              simp [Locator.matches, Descriptor.matches, fieldMatch_merge]

theorem mem_findList_put (r : References) (loc loc2 : Locator)
    (c : Component) (h : Locator.matches loc loc2 = true) :
    c ∈ (r.put loc2 c).findList loc := by
  unfold References.put References.findList
  simp [List.filter_append, h]

theorem iput_ok_data (p : IRefsImpl) (l : Locator) (c : Component)
    (p2 : IRefsImpl) (h : p.put l c = .ok p2) :
    p2.data = p.data.put l c := by
  unfold IRefsImpl.put at h
  cases hf : p.putFail l c with
  | some e => rw [hf] at h; simp at h
  | none =>
    rw [hf] at h
    simp at h
    rw [← h]

/-- C5: when the factory's probe answers with a structured descriptor and
the original locator is a structured descriptor, clarifyLocator returns
the field-by-field merge in which each field takes the original's value
when non-null and the factory-supplied value otherwise; when the factory
is none, the original locator is not structured, or the factory-supplied
locator is none or not structured, the original locator is returned
unmodified. -/
theorem clarifyLocator_field_merge :
    (∀ (d d2 : Descriptor) (f : Component)
       (probe : Locator → Except String (Option Locator)),
       f.canCreateFn = some probe →
       probe (.descriptor d) = .ok (some (.descriptor d2)) →
       (BuildReferencesDecorator.clarifyLocator (.descriptor d) (some f)).1 =
         .ok (.descriptor
           ⟨if d.group.isSome then d.group else d2.group,
            if d.type.isSome then d.type else d2.type,
            if d.kind.isSome then d.kind else d2.kind,
            if d.name.isSome then d.name else d2.name,
            if d.version.isSome then d.version else d2.version⟩)) ∧
    (∀ l, (BuildReferencesDecorator.clarifyLocator l none).1 = .ok l) ∧
    (∀ s (f : Component),
       (BuildReferencesDecorator.clarifyLocator (.key s) (some f)).1 =
         .ok (.key s)) ∧
    (∀ (d : Descriptor) (f : Component)
       (probe : Locator → Except String (Option Locator)),
       f.canCreateFn = some probe →
       probe (.descriptor d) = .ok none →
       (BuildReferencesDecorator.clarifyLocator (.descriptor d) (some f)).1 =
         .ok (.descriptor d)) ∧
    (∀ (d : Descriptor) (f : Component)
       (probe : Locator → Except String (Option Locator)) (s : String),
       f.canCreateFn = some probe →
       probe (.descriptor d) = .ok (some (.key s)) →
       (BuildReferencesDecorator.clarifyLocator (.descriptor d) (some f)).1 =
         .ok (.descriptor d)) := by
  refine ⟨?_, ?_, ?_, ?_, ?_⟩
  · intro d d2 f probe hp hres
    simp [BuildReferencesDecorator.clarifyLocator, hp, hres, mergeField_eq]
  · intro l
    cases l <;> rfl
  · intro s f
    rfl
  · intro d f probe hp hres
    simp [BuildReferencesDecorator.clarifyLocator, hp, hres]
  · intro d f probe s hp hres
    simp [BuildReferencesDecorator.clarifyLocator, hp, hres]

/-- Witness for C5 at the specification's example: original
{g, null, k, null, null} merged with factory-supplied
{g2, t, k2, n, v} gives {g, t, k, n, v}, and a non-structured locator
with a null factory is returned unmodified. -/
theorem clarifyLocator_field_merge_witness :
    (BuildReferencesDecorator.clarifyLocator (.descriptor dOrig)
        (some descFactory)).1 =
      .ok (.descriptor
        ⟨some "g", some "t", some "k", some "n", some "v"⟩) ∧
    (BuildReferencesDecorator.clarifyLocator (.key "x") none).1 =
      .ok (.key "x") :=
  ⟨clarifyLocator_field_merge.1 dOrig dFact descFactory probeDesc rfl rfl,
   clarifyLocator_field_merge.2.1 (.key "x")⟩

theorem find_build_success (st : BuildReferencesDecorator) (loc : Locator)
    (f c : Component) (loc2 : Locator)
    (tr1 tr2 tr3 : List BuildEvent) (parent2 : IRefsImpl)
    (hempty : st.baseReferences.findList loc = [])
    (hff : BuildReferencesDecorator.findFactory st loc = (.ok (some f), tr1))
    (hcr : BuildReferencesDecorator.create loc (some f) = (some c, tr2))
    (hcl : BuildReferencesDecorator.clarifyLocator loc (some f) =
      (.ok loc2, tr3))
    (hput : st.parentReferences.put loc2 c = .ok parent2) :
    st.find loc true =
      (.ok [c], { st with parentReferences := parent2 },
       tr1 ++ tr2 ++ tr3 ++ [.parentPut]) := by
  unfold BuildReferencesDecorator.find
  simp [hempty, hff, hcr, hcl, hput]

/-- C3: on a required find with no base match, when no registered factory
can create the locator the lookup fails with ReferenceNotFound carrying
the locator; when the factory search succeeds and the produced component
is registered, the lookup returns exactly that component, the parent
gains the (clarified locator, component) pair, and an independent find
against the now-updated parent set returns a base hit containing the
component with an empty invocation trace — the factory is not invoked
again. -/
theorem find_build_on_demand :
    (∀ (st : BuildReferencesDecorator) (loc : Locator)
       (tr : List BuildEvent),
       st.baseReferences.findList loc = [] →
       BuildReferencesDecorator.findFactory st loc = (.ok none, tr) →
       st.find loc true = (.error (.referenceNotFound loc), st, tr)) ∧
    (∀ (st : BuildReferencesDecorator) (loc : Locator) (f c : Component)
       (loc2 : Locator) (tr1 tr2 tr3 : List BuildEvent)
       (parent2 pr : IRefsImpl),
       st.baseReferences.findList loc = [] →
       BuildReferencesDecorator.findFactory st loc = (.ok (some f), tr1) →
       BuildReferencesDecorator.create loc (some f) = (some c, tr2) →
       BuildReferencesDecorator.clarifyLocator loc (some f) =
         (.ok loc2, tr3) →
       st.parentReferences.put loc2 c = .ok parent2 →
       st.find loc true =
         (.ok [c], { st with parentReferences := parent2 },
          tr1 ++ tr2 ++ tr3 ++ [.parentPut]) ∧
       parent2.data = st.parentReferences.data.put loc2 c ∧
       (BuildReferencesDecorator.mk parent2.data pr).find loc true =
         (.ok (parent2.data.findList loc), ⟨parent2.data, pr⟩, []) ∧
       c ∈ parent2.data.findList loc) := by
  constructor
  · intro st loc tr hempty hff
    unfold BuildReferencesDecorator.find
    simp [hempty, hff, BuildReferencesDecorator.create]
  · intro st loc f c loc2 tr1 tr2 tr3 parent2 pr hempty hff hcr hcl hput
    have hdata : parent2.data = st.parentReferences.data.put loc2 c :=
      iput_ok_data st.parentReferences loc2 c parent2 hput
    have hmatch : Locator.matches loc loc2 = true :=
      clarify_keeps_match loc (some f) loc2 tr3 hcl
    have hmem : c ∈ parent2.data.findList loc := by
      rw [hdata]
      exact mem_findList_put st.parentReferences.data loc loc2 c hmatch
    refine ⟨find_build_success st loc f c loc2 tr1 tr2 tr3 parent2
      hempty hff hcr hcl hput, hdata, ?_, hmem⟩
    exact find_with_base_match ⟨parent2.data, pr⟩ loc true
      (List.ne_nil_of_mem hmem)

/-- Witness for C3 at concrete states: a declining factory leads to
ReferenceNotFound, while a capable factory yields the built component,
which the updated parent set then returns on its own. -/
theorem find_build_on_demand_witness :
    stDeclining.find (.key "service") true =
      (.error (.referenceNotFound (.key "service")), stDeclining,
       [.probe 4]) ∧
    stGoodBuild.find (.key "service") true =
      (.ok [prodComp], ⟨stGoodBuild.baseReferences, parentAfter⟩,
       [.probe 1, .create 1, .parentPut]) ∧
    prodComp ∈ parentAfter.data.findList (.key "service") := by
  have hB := find_build_on_demand.2 stGoodBuild (.key "service")
    goodFactory prodComp (.key "service") [.probe 1] [.create 1] []
    parentAfter parentOk rfl rfl rfl rfl rfl
  exact ⟨find_build_on_demand.1 stDeclining (.key "service") [.probe 4]
    rfl rfl, hB.1, hB.2.2.2⟩

/-- Counterexample to C2: a registered factory-capable component whose
canCreate probe raises makes findFactory raise that very error, and a
required find with no base match propagates it to the caller — the probe
failure is not treated as "cannot create". -/
theorem findFactory_probe_error_cex :
    (stBadProbe.findFactory (.key "service")).1 = .error "probe failed" ∧
    (stBadProbe.find (.key "service") true).1 =
      .error (.thrown "probe failed") :=
  ⟨rfl, rfl⟩

/-- C2 as amended: a probe that returns null without raising is skipped
(treated as cannot-create), but a probe that raises has its error
propagate out of findFactory and, when the base lookup missed on a
required find, out of find as well. -/
theorem findFactory_probe_error_propagates :
    (∀ (st : BuildReferencesDecorator) (loc : Locator) (e : String)
       (tr : List BuildEvent),
       st.baseReferences.findList loc = [] →
       BuildReferencesDecorator.findFactory st loc = (.error e, tr) →
       st.find loc true = (.error (.thrown e), st, tr)) ∧
    (∀ (loc : Locator) (c : Component) (rest : List Component)
       (probe : Locator → Except String (Option Locator))
       (crf : Locator → Except String (Option Component)),
       c.canCreateFn = some probe → c.createFn = some crf →
       probe loc = .ok none →
       BuildReferencesDecorator.findFactoryLoop loc (c :: rest) =
         ((BuildReferencesDecorator.findFactoryLoop loc rest).1,
          .probe c.cid ::
            (BuildReferencesDecorator.findFactoryLoop loc rest).2)) ∧
    (∀ (loc : Locator) (c : Component) (rest : List Component)
       (probe : Locator → Except String (Option Locator))
       (crf : Locator → Except String (Option Component)) (e : String),
       c.canCreateFn = some probe → c.createFn = some crf →
       probe loc = .error e →
       BuildReferencesDecorator.findFactoryLoop loc (c :: rest) =
         (.error e, [.probe c.cid])) := by
  refine ⟨?_, ?_, ?_⟩
  · intro st loc e tr hempty hff
    unfold BuildReferencesDecorator.find
    simp [hempty, hff]
  · intro loc c rest probe crf hcc hcr hpr
    simp [BuildReferencesDecorator.findFactoryLoop, hcc, hcr, hpr]
  · intro loc c rest probe crf e hcc hcr hpr
    simp [BuildReferencesDecorator.findFactoryLoop, hcc, hcr, hpr]

/-- Witness for the amended C2 at concrete states: the raising probe's
error comes out of both findFactoryLoop and find, and the declining
factory is skipped with its probe recorded. -/
theorem findFactory_probe_error_propagates_witness :
    stBadProbe.find (.key "service") true =
      (.error (.thrown "probe failed"), stBadProbe, [.probe 3]) ∧
    BuildReferencesDecorator.findFactoryLoop (.key "service")
        [badProbeFactory] = (.error "probe failed", [.probe 3]) ∧
    BuildReferencesDecorator.findFactoryLoop (.key "service")
        [decliningFactory] = (.ok none, [.probe 4]) :=
  ⟨findFactory_probe_error_propagates.1 stBadProbe (.key "service")
     "probe failed" [.probe 3] rfl rfl,
   findFactory_probe_error_propagates.2.2 (.key "service") badProbeFactory
     [] probeRaising createProd "probe failed" rfl rfl rfl,
   findFactory_probe_error_propagates.2.1 (.key "service") decliningFactory
     [] probeDeclining createProd rfl rfl rfl⟩

/-- Counterexample to C1: with no base match, a factory located and its
create succeeding, a parent whose put raises makes the required find fail
with ReferenceNotFound — the freshly built component is not returned to
the caller. -/
theorem find_putFailure_loses_component_cex :
    stPutFail.baseReferences.findList (.key "service") = [] ∧
    (stPutFail.findFactory (.key "service")).1 = .ok (some goodFactory) ∧
    (BuildReferencesDecorator.create (.key "service")
        (some goodFactory)).1 = some prodComp ∧
    stPutFail.parentReferences.put (.key "service") prodComp =
      .error "put failed" ∧
    (stPutFail.find (.key "service") true).1 =
      .error (.referenceNotFound (.key "service")) :=
  ⟨rfl, rfl, rfl, rfl, rfl⟩

/-- C1 as amended: when the parent-registration put raises, the error
itself is swallowed (no thrown error reaches the caller and the parent is
left unchanged), but the component is not pushed into the result, so the
required find fails with ReferenceNotFound carrying the clarified
locator instead of returning the built component. -/
theorem find_putFailure_referenceNotFound (st : BuildReferencesDecorator)
    (loc : Locator) (f c : Component) (loc2 : Locator)
    (tr1 tr2 tr3 : List BuildEvent) (e : String)
    (hempty : st.baseReferences.findList loc = [])
    (hff : BuildReferencesDecorator.findFactory st loc = (.ok (some f), tr1))
    (hcr : BuildReferencesDecorator.create loc (some f) = (some c, tr2))
    (hcl : BuildReferencesDecorator.clarifyLocator loc (some f) =
      (.ok loc2, tr3))
    (hput : st.parentReferences.put loc2 c = .error e) :
    st.find loc true =
      (.error (.referenceNotFound loc2), st,
       tr1 ++ tr2 ++ tr3 ++ [.parentPut]) := by
  unfold BuildReferencesDecorator.find
  simp [hempty, hff, hcr, hcl, hput]

/-- Witness for the amended C1 at a concrete state whose parent put
raises: the lookup ends in ReferenceNotFound with the decorator state
unchanged. -/
theorem find_putFailure_referenceNotFound_witness :
    stPutFail.find (.key "service") true =
      (.error (.referenceNotFound (.key "service")), stPutFail,
       [.probe 1, .create 1, .parentPut]) :=
  find_putFailure_referenceNotFound stPutFail (.key "service") goodFactory
    prodComp (.key "service") [.probe 1] [.create 1] [] "put failed"
    rfl rfl rfl rfl rfl
